import Mathlib

/-!
# Verification of the schema-driven sample-value synthesizer

Shallow embedding of the sample-data generator of the `openapi-to-http`
repository (`src/data-generator.ts`) and of `getBaseUrl`
(`src/openapi-parser.ts`), together with theorems settling the frozen
claims about them.

Modelling conventions:
* JavaScript numbers are modelled as exact rationals (`ℚ`).
* JavaScript strings are modelled as Lean `String`s; character-level
  operations (`padEnd`, `substring`) work on `List Char`.
* A JS object field that may be absent is an `Option`; JS truthiness
  checks (`if (x)`) on string fields are modelled by `jsPresentStr`
  (absent and `""` are falsy) and on numeric count fields by `jsOrNat`
  (`x || d`, where `0` is falsy).
* `Math.random()` is modelled by an ambient tape `t : Nat → ℚ` consumed
  at an explicitly threaded index; `new Date()` output is modelled by a
  fixed ambient ISO string `now` (the clock is treated as constant over
  one generation pass).
* The external third-party generator `json-schema-faker` (`jsf.generate`,
  the "primary constraint-aware attempt") is not repository code; it is
  modelled as an opaque parameter `p : SchemaNode → Option Json` whose
  `none` result models the attempt throwing (which the source catches).
-/

/-- Plain JSON-like runtime values (the generator's output type). -/
inductive Json where
  | null : Json
  | bool : Bool → Json
  | num : ℚ → Json
  | str : String → Json
  | arr : List Json → Json
  | obj : List (String × Json) → Json
deriving Repr

/-- One layer of a schema node; `α` stands for the nested schema type.
Fields mirror exactly the fields of the schema object that
`src/data-generator.ts` reads. All are optional (absent = `none`). -/
structure SchemaCore (α : Type) where
  ref : Option String := none
  example? : Option Json := none
  examples : Option Json := none
  type : Option String := none
  enum : Option (List Json) := none
  format : Option String := none
  pattern : Option String := none
  minimum : Option ℚ := none
  maximum : Option ℚ := none
  exclusiveMinimum : Option ℚ := none
  exclusiveMaximum : Option ℚ := none
  multipleOf : Option ℚ := none
  minLength : Option Nat := none
  maxLength : Option Nat := none
  minItems : Option Nat := none
  maxItems : Option Nat := none
  items : Option α := none
  properties : Option (List (String × α)) := none
  required : Option (List String) := none
  additionalProperties : Option (Bool ⊕ α) := none

/-- A recursively-defined schema node (the `SchemaNode` of the spec). -/
inductive SchemaNode where
  | node : SchemaCore SchemaNode → SchemaNode

/-- Field access on a schema node. -/
def SchemaNode.core : SchemaNode → SchemaCore SchemaNode
  | .node c => c

/-- JS truthiness of an optional string field: `if (s.f)` succeeds
exactly when the field is present and not the empty string. -/
def jsPresentStr : Option String → Option String
  | some "" => none
  | some s => some s
  | none => none

/-- JS `x || d` on an optional numeric count field: `0` is falsy. -/
def jsOrNat : Option Nat → Nat → Nat
  | some n, d => if n = 0 then d else n
  | none, d => d

/-- The check `schema.examples && Array.isArray(schema.examples) &&
schema.examples.length > 0`, returning `schema.examples[0]` on success. -/
def usableExamples : Option Json → Option Json
  | some (Json.arr (x :: _)) => some x
  | _ => none

/-- JS property assignment `obj[key] = v` on an insertion-ordered object:
an existing key keeps its position and gets the new value, a new key is
appended. -/
def jsSetProp (o : List (String × Json)) (key : String) (v : Json) :
    List (String × Json) :=
  match o with
  | [] => [(key, v)]
  | (k, w) :: rest =>
      if k = key then (k, v) :: rest else (k, w) :: jsSetProp rest key v

/-- JS `Math.round`: round half toward positive infinity. -/
def jsRound (q : ℚ) : ℤ := (q + 1 / 2).floor

/-- JS `"….".padEnd(target, "x")` on the character list of a string. -/
def jsPadEnd (cs : List Char) (target : Nat) : List Char :=
  if target ≤ cs.length then cs
  else cs ++ List.replicate (target - cs.length) 'x'

/-- The `switch (schema.format)` of `generateString`, including the JS
truthiness test `if (schema.format)`; `none` means fall through (absent,
empty, or unrecognized format). `now` models `new Date().toISOString()`. -/
def formatSample (now : String) (format : Option String) : Option Json :=
  match jsPresentStr format with
  | none => none
  | some f =>
    match f with
    | "date" => some (Json.str ((now.splitOn "T").getD 0 ""))
    | "date-time" => some (Json.str now)
    | "email" => some (Json.str "user@example.com")
    | "uri" => some (Json.str "https://example.com")
    | "url" => some (Json.str "https://example.com")
    | "uuid" => some (Json.str "123e4567-e89b-12d3-a456-426614174000")
    | "ipv4" => some (Json.str "192.168.1.1")
    | "ipv6" => some (Json.str "2001:0db8:85a3:0000:0000:8a2e:0370:7334")
    | _ => none

/-- JS `String.prototype.split` with a single-character separator, on
character lists: `"".split(c)` is `[""]`, and every separator occurrence
ends a group. -/
def jsSplit (c : Char) : List Char → List (List Char)
  | [] => [[]]
  | a :: rest =>
    let r := jsSplit c rest
    if a = c then [] :: r
    else
      match r with
      | g :: gs => (a :: g) :: gs
      | [] => [[a]]

/-- `generateSampleFromRef` of `src/data-generator.ts`: split the
reference on `/` and expose its last segment (`parts[parts.length - 1]`)
in a placeholder object. -/
def generateSampleFromRef (ref : String) : Json :=
  let parts := jsSplit '/' ref.toList
  let componentName := parts.getD (parts.length - 1) []
  Json.obj [("id", Json.num 1), ("name", Json.str (String.mk componentName))]

/-- `generateString` of `src/data-generator.ts`. Returns `Json` because
the `enum` short-circuit returns the stored literal unchanged. -/
def generateString (now : String) (s : SchemaNode) : Json :=
  match s.core.enum with
  | some (x :: _) => x
  | _ =>
    match formatSample now s.core.format with
    | some v => v
    | none =>
      match jsPresentStr s.core.pattern with
      | some _ => Json.str "string-matching-pattern"
      | none =>
        let minLength := jsOrNat s.core.minLength 3
        let maxLength := jsOrNat s.core.maxLength 10
        let length := min maxLength (max minLength 5)
        Json.str (String.mk (List.take length (jsPadEnd "example".toList length)))

/-- `generateNumber` of `src/data-generator.ts`. -/
def generateNumber (s : SchemaNode) : Json :=
  match s.core.enum with
  | some (x :: _) => x
  | _ =>
    let minimum := s.core.minimum.getD (s.core.exclusiveMinimum.getD 0)
    let maximum := s.core.maximum.getD (s.core.exclusiveMaximum.getD 100)
    let v0 := minimum + (maximum - minimum) / 2
    let v1 :=
      match s.core.exclusiveMinimum with
      | some em => if v0 ≤ em then em + 1 else v0
      | none => v0
    let v2 :=
      match s.core.exclusiveMaximum with
      | some em => if em ≤ v1 then em - 1 else v1
      | none => v1
    let v3 :=
      match s.core.multipleOf with
      | some m => if m = 0 then v2 else (jsRound (v2 / m) : ℚ) * m
      | none => v2
    let v4 := if s.core.type = some "integer" then ((jsRound v3 : ℚ)) else v3
    Json.num v4

/-- Bridge from the computable `Rat.floor` to the `Int.floor` API. -/
theorem jsRound_eq (q : ℚ) : jsRound q = ⌊q + 1 / 2⌋ := by
  rw [jsRound, Rat.floor_def', ← Rat.floor_def]

/-! ## The recursive generator (value semantics)

The mutual block below is `generateSampleData` of `src/data-generator.ts`
together with the helpers it dispatches to. `generateArrayItems` is the
`for` loop of `generateArray`, `genObjectProps` the `for … of
Object.entries` loop of `generateObject`, and `genAdditional` the
`additionalProperties` tail of `generateObject`. The null check at the
top of the source's `generateSampleData` lives in the wrapper `generate`
below the block; every recursive call site in the source passes a
structurally available (non-null) node. -/

theorem sizeOf_items_lt {s it : SchemaNode} (h : s.core.items = some it) :
    sizeOf it + 1 < sizeOf s := by
  obtain ⟨c⟩ := s
  obtain ⟨f1, f2, f3, f4, f5, f6, f7, f8, f9, f10, f11, f12, f13, f14, f15,
    f16, f17, f18, f19, f20⟩ := c
  simp only [SchemaNode.core] at h
  subst h
  simp
  omega

theorem sizeOf_properties_lt {s : SchemaNode} {ps : List (String × SchemaNode)}
    (h : s.core.properties = some ps) : sizeOf ps < sizeOf s := by
  obtain ⟨c⟩ := s
  obtain ⟨f1, f2, f3, f4, f5, f6, f7, f8, f9, f10, f11, f12, f13, f14, f15,
    f16, f17, f18, f19, f20⟩ := c
  simp only [SchemaNode.core] at h
  subst h
  simp
  omega

theorem sizeOf_additional_lt {s ap : SchemaNode}
    (h : s.core.additionalProperties = some (Sum.inr ap)) :
    sizeOf ap < sizeOf s := by
  obtain ⟨c⟩ := s
  obtain ⟨f1, f2, f3, f4, f5, f6, f7, f8, f9, f10, f11, f12, f13, f14, f15,
    f16, f17, f18, f19, f20⟩ := c
  simp only [SchemaNode.core] at h
  subst h
  simp
  omega

mutual

/-- `generateSampleData` of `src/data-generator.ts`, after its null check
(see `generate`): `$ref` short-circuit, then `example`, then `examples`,
then the primary attempt `p` (external `jsf.generate`; `none` models it
throwing), whose failure falls back to `generateSimpleSample`. -/
def generateSampleData (p : SchemaNode → Option Json) (t : Nat → ℚ)
    (now : String) (s : SchemaNode) (k : Nat) : Json × Nat :=
  match jsPresentStr s.core.ref with
  | some r => (generateSampleFromRef r, k)
  | none =>
    match s.core.example? with
    | some e => (e, k)
    | none =>
      match usableExamples s.core.examples with
      | some x => (x, k)
      | none =>
        match p s with
        | some v => (v, k)
        | none => generateSimpleSample p t now s k
termination_by (sizeOf s, 3)

/-- `generateSimpleSample` of `src/data-generator.ts`: dispatch on the
(JS-truthy) `type` field. -/
def generateSimpleSample (p : SchemaNode → Option Json) (t : Nat → ℚ)
    (now : String) (s : SchemaNode) (k : Nat) : Json × Nat :=
  match jsPresentStr s.core.type with
  | none => (Json.null, k)
  | some ty =>
    match ty with
    | "string" => (generateString now s, k)
    | "number" => (generateNumber s, k)
    | "integer" => (generateNumber s, k)
    | "boolean" => (Json.bool true, k)
    | "array" => generateArray p t now s k
    | "object" => generateObject p t now s k
    | _ => (Json.null, k)
termination_by (sizeOf s, 2)

/-- `generateArray` of `src/data-generator.ts`. -/
def generateArray (p : SchemaNode → Option Json) (t : Nat → ℚ)
    (now : String) (s : SchemaNode) (k : Nat) : Json × Nat :=
  let minItems := jsOrNat s.core.minItems 1
  let maxItems := jsOrNat s.core.maxItems 3
  let itemCount := min maxItems (max minItems 2)
  match h : s.core.items with
  | some it =>
    let r := generateArrayItems p t now it itemCount k
    (Json.arr r.1, r.2)
  | none => (Json.arr [], k)
termination_by (sizeOf s, 1)
decreasing_by
  all_goals first
    | decreasing_tactic
    | (simp_wf
       exact Prod.Lex.left _ _ (sizeOf_items_lt h))

/-- The item loop of `generateArray`: `itemCount` pushes of
`generateSampleData(schema.items)`. -/
def generateArrayItems (p : SchemaNode → Option Json) (t : Nat → ℚ)
    (now : String) (it : SchemaNode) (n : Nat) (k : Nat) :
    List Json × Nat :=
  match n with
  | 0 => ([], k)
  | m + 1 =>
    let v := generateSampleData p t now it k
    let rest := generateArrayItems p t now it m v.2
    (v.1 :: rest.1, rest.2)
termination_by (sizeOf it + 1, n)

/-- `generateObject` of `src/data-generator.ts`: the property loop, then
the `additionalProperties` tail. -/
def generateObject (p : SchemaNode → Option Json) (t : Nat → ℚ)
    (now : String) (s : SchemaNode) (k : Nat) : Json × Nat :=
  let required := s.core.required.getD []
  match h : s.core.properties with
  | some ps =>
    let r := genObjectProps p t now required ps [] k
    genAdditional p t now s r.1 r.2
  | none => genAdditional p t now s [] k
termination_by (sizeOf s, 1)
decreasing_by
  all_goals first
    | decreasing_tactic
    | (simp_wf
       exact Prod.Lex.left _ _ (sizeOf_properties_lt h))

/-- The `for … of Object.entries(schema.properties)` loop of
`generateObject`: a property is generated when its name is required, or
else when the tape draw at the current index exceeds `0.3`. -/
def genObjectProps (p : SchemaNode → Option Json) (t : Nat → ℚ)
    (now : String) (required : List String)
    (ps : List (String × SchemaNode)) (acc : List (String × Json))
    (k : Nat) : List (String × Json) × Nat :=
  match ps with
  | [] => (acc, k)
  | (propName, propSchema) :: rest =>
    if required.contains propName then
      let v := generateSampleData p t now propSchema k
      genObjectProps p t now required rest (jsSetProp acc propName v.1) v.2
    else if t k > 3 / 10 then
      let v := generateSampleData p t now propSchema (k + 1)
      genObjectProps p t now required rest (jsSetProp acc propName v.1) v.2
    else
      genObjectProps p t now required rest acc (k + 1)
termination_by (sizeOf ps, 0)

/-- The `additionalProperties` tail of `generateObject`: `=== true` adds
a fixed string property, a schema-valued field adds a generated one. -/
def genAdditional (p : SchemaNode → Option Json) (t : Nat → ℚ)
    (now : String) (s : SchemaNode) (obj : List (String × Json))
    (k : Nat) : Json × Nat :=
  match h : s.core.additionalProperties with
  | some (Sum.inl true) =>
    (Json.obj (jsSetProp obj "additionalProperty" (Json.str "value")), k)
  | some (Sum.inr ap) =>
    let v := generateSampleData p t now ap k
    (Json.obj (jsSetProp obj "additionalProperty" v.1), v.2)
  | _ => (Json.obj obj, k)
termination_by (sizeOf s, 0)
decreasing_by
  all_goals first
    | decreasing_tactic
    | (simp_wf
       exact Prod.Lex.left _ _ (sizeOf_additional_lt h))

end

/-- The public contract `generate(node: SchemaNode | null)` of the spec:
the `if (!schema) return null` head of the source's `generateSampleData`,
then the dispatch. -/
def generate (p : SchemaNode → Option Json) (t : Nat → ℚ) (now : String) :
    Option SchemaNode → Nat → Json × Nat
  | none, k => (Json.null, k)
  | some s, k => generateSampleData p t now s k

/-! ## The recursive generator (mutation-tracking semantics)

The `…M` block renders the same source functions in a semantics that
makes JS heap aliasing observable: every function returns, alongside its
value, the state of the schema node it received (a callee holds a live
reference to the node and to its nested nodes, so a parent must observe
whatever the callee leaves behind; parents write returned children back
into their own node). The source bodies contain no assignment to any
schema object, so each leaf case returns its node as received, and the
structural cases rebuild the node from the returned children. The
primary generator is modelled as `p : SchemaNode → Option Json ×
SchemaNode` — it also receives the live node, so its (external) effect
on the node is a parameter. Recursion is by fuel: exhausted fuel returns
a dummy value with the node as received, so the mutation theorems hold
for every fuel, in particular any fuel large enough to model a real run. -/

mutual

/-- Mutation-tracking `generateSampleData` (after its null check). -/
def generateSampleDataM (p : SchemaNode → Option Json × SchemaNode)
    (t : Nat → ℚ) (now : String) :
    Nat → SchemaNode → Nat → Json × SchemaNode × Nat
  | 0, s, k => (Json.null, s, k)
  | fuel + 1, s, k =>
    match jsPresentStr s.core.ref with
    | some r => (generateSampleFromRef r, s, k)
    | none =>
      match s.core.example? with
      | some e => (e, s, k)
      | none =>
        match usableExamples s.core.examples with
        | some x => (x, s, k)
        | none =>
          match p s with
          | (some v, s') => (v, s', k)
          | (none, s') => generateSimpleSampleM p t now fuel s' k

/-- Mutation-tracking `generateSimpleSample`. -/
def generateSimpleSampleM (p : SchemaNode → Option Json × SchemaNode)
    (t : Nat → ℚ) (now : String) :
    Nat → SchemaNode → Nat → Json × SchemaNode × Nat
  | 0, s, k => (Json.null, s, k)
  | fuel + 1, s, k =>
    match jsPresentStr s.core.type with
    | none => (Json.null, s, k)
    | some ty =>
      match ty with
      | "string" => (generateString now s, s, k)
      | "number" => (generateNumber s, s, k)
      | "integer" => (generateNumber s, s, k)
      | "boolean" => (Json.bool true, s, k)
      | "array" => generateArrayM p t now fuel s k
      | "object" => generateObjectM p t now fuel s k
      | _ => (Json.null, s, k)

/-- Mutation-tracking `generateArray`. -/
def generateArrayM (p : SchemaNode → Option Json × SchemaNode)
    (t : Nat → ℚ) (now : String) :
    Nat → SchemaNode → Nat → Json × SchemaNode × Nat
  | 0, s, k => (Json.null, s, k)
  | fuel + 1, s, k =>
    let minItems := jsOrNat s.core.minItems 1
    let maxItems := jsOrNat s.core.maxItems 3
    let itemCount := min maxItems (max minItems 2)
    match s.core.items with
    | some it =>
      let r := generateArrayItemsM p t now fuel itemCount it k
      (Json.arr r.1, SchemaNode.node { s.core with items := some r.2.1 },
        r.2.2)
    | none => (Json.arr [], s, k)

/-- Mutation-tracking item loop of `generateArray`. -/
def generateArrayItemsM (p : SchemaNode → Option Json × SchemaNode)
    (t : Nat → ℚ) (now : String) :
    Nat → Nat → SchemaNode → Nat → List Json × SchemaNode × Nat
  | 0, _, it, k => ([], it, k)
  | _ + 1, 0, it, k => ([], it, k)
  | fuel + 1, m + 1, it, k =>
    let v := generateSampleDataM p t now fuel it k
    let rest := generateArrayItemsM p t now fuel m v.2.1 v.2.2
    (v.1 :: rest.1, rest.2.1, rest.2.2)

/-- Mutation-tracking `generateObject`. -/
def generateObjectM (p : SchemaNode → Option Json × SchemaNode)
    (t : Nat → ℚ) (now : String) :
    Nat → SchemaNode → Nat → Json × SchemaNode × Nat
  | 0, s, k => (Json.null, s, k)
  | fuel + 1, s, k =>
    let required := s.core.required.getD []
    match s.core.properties with
    | some ps =>
      let r := genObjectPropsM p t now fuel required ps [] k
      genAdditionalM p t now fuel
        (SchemaNode.node { s.core with properties := some r.2.1 }) r.1 r.2.2
    | none => genAdditionalM p t now fuel s [] k

/-- Mutation-tracking property loop of `generateObject`. -/
def genObjectPropsM (p : SchemaNode → Option Json × SchemaNode)
    (t : Nat → ℚ) (now : String) :
    Nat → List String → List (String × SchemaNode) →
    List (String × Json) → Nat →
    List (String × Json) × List (String × SchemaNode) × Nat
  | 0, _, ps, acc, k => (acc, ps, k)
  | _ + 1, _, [], acc, k => (acc, [], k)
  | fuel + 1, required, (propName, propSchema) :: rest, acc, k =>
    if required.contains propName then
      let v := generateSampleDataM p t now fuel propSchema k
      let r := genObjectPropsM p t now fuel required rest
        (jsSetProp acc propName v.1) v.2.2
      (r.1, (propName, v.2.1) :: r.2.1, r.2.2)
    else if t k > 3 / 10 then
      let v := generateSampleDataM p t now fuel propSchema (k + 1)
      let r := genObjectPropsM p t now fuel required rest
        (jsSetProp acc propName v.1) v.2.2
      (r.1, (propName, v.2.1) :: r.2.1, r.2.2)
    else
      let r := genObjectPropsM p t now fuel required rest acc (k + 1)
      (r.1, (propName, propSchema) :: r.2.1, r.2.2)

/-- Mutation-tracking `additionalProperties` tail of `generateObject`. -/
def genAdditionalM (p : SchemaNode → Option Json × SchemaNode)
    (t : Nat → ℚ) (now : String) :
    Nat → SchemaNode → List (String × Json) → Nat →
    Json × SchemaNode × Nat
  | 0, s, _, k => (Json.null, s, k)
  | fuel + 1, s, obj, k =>
    match s.core.additionalProperties with
    | some (Sum.inl true) =>
      (Json.obj (jsSetProp obj "additionalProperty" (Json.str "value")),
        s, k)
    | some (Sum.inr ap) =>
      let v := generateSampleDataM p t now fuel ap k
      (Json.obj (jsSetProp obj "additionalProperty" v.1),
        SchemaNode.node { s.core with
          additionalProperties := some (Sum.inr v.2.1) }, v.2.2)
    | _ => (Json.obj obj, s, k)

end

/-- Mutation-tracking public contract `generate(node: SchemaNode | null)`. -/
def generateM (p : SchemaNode → Option Json × SchemaNode) (t : Nat → ℚ)
    (now : String) (fuel : Nat) :
    Option SchemaNode → Nat → Json × Option SchemaNode × Nat
  | none, k => (Json.null, none, k)
  | some s, k =>
    let r := generateSampleDataM p t now fuel s k
    (r.1, some r.2.1, r.2.2)

/-! ## The OpenAPI parser's `getBaseUrl` -/

/-- A server entry of a parsed OpenAPI document; only the field that
`getBaseUrl` reads is modelled. -/
structure ServerObject where
  url : String

/-- A parsed OpenAPI document, restricted to the field `getBaseUrl`
reads; `servers` is optional in OpenAPI documents. -/
structure OpenAPIDocument where
  servers : Option (List ServerObject) := none

/-- `getBaseUrl` of `src/openapi-parser.ts` (an identical copy exists in
the repository beside it): first server's `url` when the `servers` array
is present and non-empty, else the fixed fallback. -/
def getBaseUrl (spec : OpenAPIDocument) : String :=
  match spec.servers with
  | some (srv :: _) => srv.url
  | _ => "http://localhost"

/-! ## Concrete inputs used by witnesses and counterexamples -/

/-- A number schema whose `multipleOf` is larger than its range. -/
def numMultipleOfSchema : SchemaNode :=
  SchemaNode.node
    { type := some "number", minimum := some 1, maximum := some 2,
      multipleOf := some 10 }

/-- An integer schema with an attainable integer range. -/
def intRangeSchema : SchemaNode :=
  SchemaNode.node
    { type := some "integer", minimum := some 1, maximum := some 4 }

/-- A string schema with `minLength = maxLength = 0`. -/
def zeroLenStringSchema : SchemaNode :=
  SchemaNode.node
    { type := some "string", minLength := some 0, maxLength := some 0 }

/-- A string schema with `minLength = 2`, `maxLength = 20`. -/
def rangeStringSchema : SchemaNode :=
  SchemaNode.node
    { type := some "string", minLength := some 2, maxLength := some 20 }

/-- A schema with no fields at all. -/
def emptySchema : SchemaNode := SchemaNode.node {}

/-- A boolean schema carrying a non-empty enum. -/
def boolEnumSchema : SchemaNode :=
  SchemaNode.node { type := some "boolean", enum := some [Json.str "a"] }

/-- A string schema carrying a non-empty enum. -/
def strEnumSchema : SchemaNode :=
  SchemaNode.node
    { type := some "string", enum := some [Json.str "a", Json.str "b"] }

/-- A schema that is a reference to a components entry. -/
def refUserSchema : SchemaNode :=
  SchemaNode.node { ref := some "#/components/schemas/User" }

/-- A schema whose `$ref` field is present but holds the empty string. -/
def emptyRefSchema : SchemaNode :=
  SchemaNode.node { ref := some "" }

/-- The array schema of the spec's example: string items, `minItems = 1`,
`maxItems = 3`. -/
def arrayRangeSchema : SchemaNode :=
  SchemaNode.node
    { type := some "array", items := some (SchemaNode.node
        { type := some "string" }),
      minItems := some 1, maxItems := some 3 }

/-- An array schema with no `items`. -/
def arrayNoItemsSchema : SchemaNode :=
  SchemaNode.node
    { type := some "array", minItems := some 1, maxItems := some 3 }

/-- An array schema with `maxItems = 0` and boolean items. -/
def arrayMaxZeroSchema : SchemaNode :=
  SchemaNode.node
    { type := some "array", items := some (SchemaNode.node
        { type := some "boolean" }),
      maxItems := some 0 }

/-- An object schema with two declared properties, both required. -/
def userObjectSchema : SchemaNode :=
  SchemaNode.node
    { type := some "object",
      properties := some
        [("username", SchemaNode.node { type := some "string" }),
         ("email", SchemaNode.node { type := some "string" })],
      required := some ["username", "email"] }

/-- A primary attempt that always fails (models `jsf.generate` throwing). -/
def primaryFail : SchemaNode → Option Json := fun _ => none

/-- A mutation-tracking primary attempt that fails and leaves the node
it received unchanged. -/
def primaryFailM : SchemaNode → Option Json × SchemaNode :=
  fun x => (none, x)

/-- A primary attempt that always succeeds with the number `7`. -/
def primarySeven : SchemaNode → Option Json := fun _ => some (Json.num 7)

/-- The all-zeros random tape. -/
def zeroTape : Nat → ℚ := fun _ => 0

/-! ## Theorems -/

/-- Shared unfolding fact: when the `$ref`, `example` and `examples`
short-circuits do not fire and the primary attempt fails,
`generateSampleData` returns exactly the simplified generator's result. -/
theorem generateSampleData_fallback (p : SchemaNode → Option Json)
    (t : Nat → ℚ) (now : String) (s : SchemaNode) (k : Nat)
    (href : jsPresentStr s.core.ref = none)
    (hex : s.core.example? = none)
    (hexs : usableExamples s.core.examples = none)
    (hp : p s = none) :
    generateSampleData p t now s k = generateSimpleSample p t now s k := by
  rw [generateSampleData, href, hex, hexs, hp]

/-- C1: for every schema input, `generateSampleData` returns a value
without raising: it is a total function here, and whenever the primary
constraint-aware attempt fails (`p s = none`, modelling a thrown
exception being caught) with none of the earlier short-circuits firing,
the result is exactly the result of the (equally total, hence
non-raising) simplified generator. -/
theorem claim_C1_fallback (p : SchemaNode → Option Json) (t : Nat → ℚ)
    (now : String) (s : SchemaNode) (k : Nat)
    (href : jsPresentStr s.core.ref = none)
    (hex : s.core.example? = none)
    (hexs : usableExamples s.core.examples = none)
    (hp : p s = none) :
    generateSampleData p t now s k = generateSimpleSample p t now s k :=
  generateSampleData_fallback p t now s k href hex hexs hp

/-- Witness for C1: a failing primary on the empty schema falls back to
the simplified generator. -/
theorem claim_C1_fallback_witness :
    generateSampleData primaryFail zeroTape "" emptySchema 0 =
      generateSimpleSample primaryFail zeroTape "" emptySchema 0 :=
  claim_C1_fallback primaryFail zeroTape "" emptySchema 0 rfl rfl rfl rfl

/-- C4 (amended): when no `$ref`/`example`/`examples` short-circuit fires
and the primary attempt fails, a schema with a non-empty enum whose type
is `string`, `number` or `integer` makes `generateSampleData` return the
first enum element. (As stated the claim fails: the simplified path
consults `enum` only in the string and number generators — a `boolean`
schema with an enum returns `true` instead — and when the primary attempt
succeeds, its value, not necessarily the first enum element, is
returned; see the counterexample.) -/
theorem claim_C4_enum_first (p : SchemaNode → Option Json) (t : Nat → ℚ)
    (now : String) (s : SchemaNode) (k : Nat) (x : Json) (xs : List Json)
    (href : s.core.ref = none)
    (hex : s.core.example? = none)
    (hexs : s.core.examples = none)
    (hp : p s = none)
    (henum : s.core.enum = some (x :: xs))
    (hty : s.core.type = some "string" ∨ s.core.type = some "number" ∨
      s.core.type = some "integer") :
    generateSampleData p t now s k = (x, k) := by
  rw [generateSampleData_fallback p t now s k (by rw [href]; rfl) hex
    (by rw [hexs]; rfl) hp]
  rcases hty with hty | hty | hty <;>
    rw [generateSimpleSample, hty] <;>
    simp [jsPresentStr, generateString, generateNumber, henum]

/-- Witness for C4: a failing primary on a string schema with enum
`["a", "b"]` yields `"a"`. -/
theorem claim_C4_enum_first_witness :
    generateSampleData primaryFail zeroTape "" strEnumSchema 0 =
      (Json.str "a", 0) :=
  claim_C4_enum_first primaryFail zeroTape "" strEnumSchema 0
    (Json.str "a") [Json.str "b"] rfl rfl rfl rfl rfl (Or.inl rfl)

/-- Counterexample to C4 as stated: a `boolean` schema with non-empty
enum `["a"]` (no `$ref`, no examples) generates `true`, not the first
enum element, when the primary attempt fails. -/
theorem claim_C4_counterexample :
    generateSampleData primaryFail zeroTape "" boolEnumSchema 0 =
      (Json.bool true, 0) ∧ Json.bool true ≠ Json.str "a" := by
  constructor
  · rw [generateSampleData_fallback primaryFail zeroTape "" boolEnumSchema 0
      rfl rfl rfl rfl, generateSimpleSample]
    rfl
  · exact fun h => Json.noConfusion h

/-- C6 (amended): a schema whose `$ref` field is present with a
non-empty value short-circuits `generateSampleData` to the placeholder
object `{id: 1, name: s}`, where `s` is the substring of the reference
after its last `/`, regardless of any other field of the node. (For a
present but empty `$ref` the JS truthiness test skips the short-circuit;
see the counterexample.) -/
theorem claim_C6_ref_placeholder (p : SchemaNode → Option Json)
    (t : Nat → ℚ) (now : String) (s : SchemaNode) (k : Nat) (r : String)
    (href : s.core.ref = some r) (hne : r ≠ "") :
    generateSampleData p t now s k =
      (Json.obj [("id", Json.num 1),
        ("name", Json.str (String.mk ((jsSplit '/' r.toList).getD
          ((jsSplit '/' r.toList).length - 1) [])))], k) := by
  have hjs : jsPresentStr s.core.ref = some r := by
    rw [href]
    unfold jsPresentStr
    split
    · simp_all
    · simp_all
    · simp_all
  rw [generateSampleData, hjs]
  rfl

/-- Witness for C6: the reference `#/components/schemas/User` produces
the placeholder `{id: 1, name: "User"}`. -/
theorem claim_C6_ref_placeholder_witness :
    generateSampleData primaryFail zeroTape "" refUserSchema 0 =
      (Json.obj [("id", Json.num 1), ("name", Json.str "User")], 0) := by
  rw [claim_C6_ref_placeholder primaryFail zeroTape "" refUserSchema 0
    "#/components/schemas/User" rfl (by decide)]
  rfl

/-- Counterexample to C6 as stated: a node whose `$ref` field is present
but empty is not short-circuited — with a failing primary it generates
`null`, not the placeholder object. -/
theorem claim_C6_counterexample :
    generateSampleData primaryFail zeroTape "" emptyRefSchema 0 =
      (Json.null, 0) ∧
      Json.null ≠ Json.obj [("id", Json.num 1), ("name", Json.str "")] := by
  constructor
  · rw [generateSampleData_fallback primaryFail zeroTape "" emptyRefSchema 0
      rfl rfl rfl rfl, generateSimpleSample]
    rfl
  · exact fun h => Json.noConfusion h

/-- C8 (amended): a schema with no type, no enum, no example/examples and
no `$ref` makes `generateSampleData` return `null` (without raising)
whenever the primary constraint-aware attempt fails; when the primary
attempt succeeds its value is returned instead, whatever it is (see the
counterexample). -/
theorem claim_C8_missing_type_null (p : SchemaNode → Option Json)
    (t : Nat → ℚ) (now : String) (s : SchemaNode) (k : Nat)
    (href : s.core.ref = none)
    (hex : s.core.example? = none)
    (hexs : s.core.examples = none)
    (_henum : s.core.enum = none)
    (hty : s.core.type = none)
    (hp : p s = none) :
    generateSampleData p t now s k = (Json.null, k) := by
  rw [generateSampleData_fallback p t now s k (by rw [href]; rfl) hex
    (by rw [hexs]; rfl) hp, generateSimpleSample, hty]
  rfl

/-- Witness for C8: the empty schema with a failing primary yields
`null`. -/
theorem claim_C8_missing_type_null_witness :
    generateSampleData primaryFail zeroTape "" emptySchema 0 =
      (Json.null, 0) :=
  claim_C8_missing_type_null primaryFail zeroTape "" emptySchema 0
    rfl rfl rfl rfl rfl rfl

/-- Counterexample to C8 as stated: nothing in the repository forces
`null` for a type-free schema — the result is whatever the external
primary generator returns when it does not throw; a primary returning
`7` makes `generateSampleData` return `7`, not `null`. -/
theorem claim_C8_counterexample :
    generateSampleData primarySeven zeroTape "" emptySchema 0 =
      (Json.num 7, 0) ∧ Json.num 7 ≠ Json.null := by
  constructor
  · rw [generateSampleData]
    rfl
  · exact fun h => Json.noConfusion h

theorem jsPadEnd_take_length (cs : List Char) (n : Nat) :
    (List.take n (jsPadEnd cs n)).length = n := by
  unfold jsPadEnd
  split <;> simp <;> omega

/-- Arithmetic core of the integer branch of `generateNumber`: rounding
the midpoint of `[lo, hi]` stays inside the interval as soon as the
interval contains an integer at all. -/
theorem floor_mid_bounds {lo hi : ℚ} (n : ℤ) (hn1 : lo ≤ (n : ℚ))
    (hn2 : (n : ℚ) ≤ hi) :
    lo ≤ (⌊lo + (hi - lo) / 2 + 1 / 2⌋ : ℚ) ∧
      (⌊lo + (hi - lo) / 2 + 1 / 2⌋ : ℚ) ≤ hi := by
  have h1 : (⌊lo + (hi - lo) / 2 + 1 / 2⌋ : ℚ) ≤ lo + (hi - lo) / 2 + 1 / 2 :=
    Int.floor_le _
  have h2 : lo + (hi - lo) / 2 + 1 / 2 < ⌊lo + (hi - lo) / 2 + 1 / 2⌋ + 1 :=
    Int.lt_floor_add_one _
  constructor
  · by_contra hc
    push_neg at hc
    have hnr : ⌊lo + (hi - lo) / 2 + 1 / 2⌋ < n := by
      exact_mod_cast lt_of_lt_of_le hc hn1
    have hnr1 : (⌊lo + (hi - lo) / 2 + 1 / 2⌋ : ℚ) + 1 ≤ (n : ℚ) := by
      exact_mod_cast hnr
    linarith
  · by_contra hc
    push_neg at hc
    have hnr : n < ⌊lo + (hi - lo) / 2 + 1 / 2⌋ := by
      exact_mod_cast lt_of_le_of_lt hn2 hc
    have hnr1 : (n : ℚ) + 1 ≤ (⌊lo + (hi - lo) / 2 + 1 / 2⌋ : ℚ) := by
      exact_mod_cast hnr
    linarith

/-- C2 (amended): for a number or integer schema with `minimum = lo` and
`maximum = hi` set, `lo ≤ hi`, no enum, no exclusive bounds and no
`multipleOf` — and, when the type is `integer`, an integer inside
`[lo, hi]` — the fallback number generator returns a value `v` with
`lo ≤ v ≤ hi`. (The claim's inclusion of `multipleOf` fails, see the
counterexample; exclusive bounds must also be absent, since the
adjustment `value = exclusiveMinimum + 1` can overshoot `maximum`.) -/
theorem claim_C2_number_bounds (s : SchemaNode) (lo hi : ℚ)
    (henum : s.core.enum = none)
    (hmin : s.core.minimum = some lo) (hmax : s.core.maximum = some hi)
    (hemin : s.core.exclusiveMinimum = none)
    (hemax : s.core.exclusiveMaximum = none)
    (hmul : s.core.multipleOf = none)
    (hle : lo ≤ hi)
    (hint : s.core.type = some "integer" →
      ∃ n : ℤ, lo ≤ (n : ℚ) ∧ (n : ℚ) ≤ hi) :
    ∃ v : ℚ, generateNumber s = Json.num v ∧ lo ≤ v ∧ v ≤ hi := by
  by_cases hty : s.core.type = some "integer"
  · obtain ⟨n, hn1, hn2⟩ := hint hty
    refine ⟨(⌊lo + (hi - lo) / 2 + 1 / 2⌋ : ℚ), ?_, ?_, ?_⟩
    · simp [generateNumber, henum, hmin, hmax, hemin, hemax, hmul, hty,
        jsRound_eq]
    · exact (floor_mid_bounds n hn1 hn2).1
    · exact (floor_mid_bounds n hn1 hn2).2
  · refine ⟨lo + (hi - lo) / 2, ?_, by linarith, by linarith⟩
    simp [generateNumber, henum, hmin, hmax, hemin, hemax, hmul, hty]

/-- Witness for C2 at a concrete integer schema. -/
theorem claim_C2_number_bounds_witness :
    ∃ v : ℚ, generateNumber intRangeSchema = Json.num v ∧ 1 ≤ v ∧ v ≤ 4 :=
  claim_C2_number_bounds intRangeSchema 1 4 rfl rfl rfl rfl rfl rfl
    (by norm_num) (fun _ => ⟨2, by norm_num, by norm_num⟩)

/-- Counterexample to C2 as stated: with `minimum = 1`, `maximum = 2`,
`multipleOf = 10`, the generator rounds the midpoint `1.5` to the
nearest multiple of `10`, producing `0`, which is below `minimum`. -/
theorem claim_C2_counterexample :
    generateNumber numMultipleOfSchema = Json.num 0 ∧ ¬ ((1 : ℚ) ≤ 0) := by
  constructor
  · norm_num [generateNumber, numMultipleOfSchema, jsRound_eq,
      SchemaNode.core]
  · norm_num

/-- C3 (amended): for a string schema with `minLength = a ≤ maxLength = b`,
`1 ≤ b`, no enum, no recognized format and no pattern, the produced
string has length exactly `clamp(5, a, b) = min b (max a 5)`. (For
`b = 0` the claim fails: the JS-falsy default replaces the bound, see the
counterexample.) -/
theorem claim_C3_string_length (now : String) (s : SchemaNode) (a b : Nat)
    (henum : s.core.enum = none)
    (hfmt : formatSample now s.core.format = none)
    (hpat : s.core.pattern = none)
    (hmin : s.core.minLength = some a) (hmax : s.core.maxLength = some b)
    (hab : a ≤ b) (hb : 1 ≤ b) :
    ∃ str : String, generateString now s = Json.str str ∧
      str.length = min b (max a 5) := by
  refine ⟨String.mk (List.take (min (jsOrNat (some b) 10)
    (max (jsOrNat (some a) 3) 5)) (jsPadEnd "example".toList
      (min (jsOrNat (some b) 10) (max (jsOrNat (some a) 3) 5)))), ?_, ?_⟩
  · simp [generateString, henum, hfmt, hpat, hmin, hmax, jsPresentStr]
  · have hlen := jsPadEnd_take_length "example".toList
      (min (jsOrNat (some b) 10) (max (jsOrNat (some a) 3) 5))
    have : (String.mk (List.take (min (jsOrNat (some b) 10)
        (max (jsOrNat (some a) 3) 5)) (jsPadEnd "example".toList
        (min (jsOrNat (some b) 10)
          (max (jsOrNat (some a) 3) 5))))).length =
        min (jsOrNat (some b) 10) (max (jsOrNat (some a) 3) 5) := hlen
    rw [this]
    have hb0 : b ≠ 0 := by omega
    have e1 : jsOrNat (some b) 10 = b := by simp [jsOrNat, hb0]
    rcases Nat.eq_zero_or_pos a with ha | ha
    · subst ha
      have e2 : jsOrNat (some 0) 3 = 3 := rfl
      rw [e1, e2]
      omega
    · have ha0 : a ≠ 0 := by omega
      have e2 : jsOrNat (some a) 3 = a := by simp [jsOrNat, ha0]
      rw [e1, e2]

/-- Witness for C3 at a concrete string schema. -/
theorem claim_C3_string_length_witness :
    ∃ str : String, generateString "" rangeStringSchema = Json.str str ∧
      str.length = min 20 (max 2 5) :=
  claim_C3_string_length "" rangeStringSchema 2 20 rfl rfl rfl rfl rfl
    (by decide) (by decide)

/-- Counterexample to C3 as stated: with `minLength = maxLength = 0` the
claimed length is `clamp(5, 0, 0) = 0`, but both falsy bounds are
replaced by their defaults (`3` and `10`) and the generator produces the
5-character string `"examp"`. -/
theorem claim_C3_counterexample :
    generateString "" zeroLenStringSchema = Json.str "examp" ∧
      ¬ ("examp".length = min 0 (max 0 5)) := by
  constructor
  · rfl
  · decide

/-- C10 (amended): `getBaseUrl` returns the url of the first entry of the
document's `servers` array when that array is present and non-empty, and
the string `"http://localhost"` otherwise. (The parenthetical "it never
returns an empty string" fails when the first server's url is itself
empty, see the counterexample.) -/
theorem claim_C10_base_url (spec : OpenAPIDocument) :
    (∀ srv rest, spec.servers = some (srv :: rest) →
      getBaseUrl spec = srv.url) ∧
    ((spec.servers = none ∨ spec.servers = some []) →
      getBaseUrl spec = "http://localhost") := by
  constructor
  · intro srv rest h
    simp [getBaseUrl, h]
  · rintro (h | h) <;> simp [getBaseUrl, h]

/-- Witness for C10 at concrete documents. -/
theorem claim_C10_base_url_witness :
    getBaseUrl { servers := some [{ url := "https://api.example.com/v1" }] }
        = "https://api.example.com/v1" ∧
      getBaseUrl { servers := none } = "http://localhost" :=
  ⟨(claim_C10_base_url _).1 _ _ rfl, (claim_C10_base_url _).2 (Or.inl rfl)⟩

/-- Counterexample to C10 as stated: a document whose first server has an
empty `url` makes `getBaseUrl` return the empty string. -/
theorem claim_C10_counterexample :
    getBaseUrl { servers := some [{ url := "" }] } = "" := rfl

theorem generateArrayItems_length (p : SchemaNode → Option Json)
    (t : Nat → ℚ) (now : String) (it : SchemaNode) :
    ∀ n k, (generateArrayItems p t now it n k).1.length = n := by
  intro n
  induction n with
  | zero => intro k; simp [generateArrayItems]
  | succ m ih =>
    intro k
    rw [generateArrayItems]
    simp [ih]

/-- C7 (amended): for an array schema, if `items` is absent the generator
returns an empty sequence; otherwise, provided `maxItems` is not the
(JS-falsy) `0`, it returns a sequence of exactly
`clamp(2, minItems ?? 1, maxItems ?? 3)` recursively generated elements.
(For `maxItems = 0` the claim fails: the `||`-default replaces the bound
with `3`, see the counterexample.) -/
theorem claim_C7_array_count (p : SchemaNode → Option Json) (t : Nat → ℚ)
    (now : String) (s : SchemaNode) (k : Nat) :
    (s.core.items = none → generateArray p t now s k = (Json.arr [], k)) ∧
    (∀ it, s.core.items = some it → s.core.maxItems ≠ some 0 →
      ∃ l k2, generateArray p t now s k = (Json.arr l, k2) ∧
        l.length =
          min (s.core.maxItems.getD 3) (max (s.core.minItems.getD 1) 2)) := by
  constructor
  · intro h
    rw [generateArray, h]
  · intro it h hmax0
    have harith : min (jsOrNat s.core.maxItems 3)
        (max (jsOrNat s.core.minItems 1) 2) =
        min (s.core.maxItems.getD 3) (max (s.core.minItems.getD 1) 2) := by
      rcases hmx : s.core.maxItems with _ | mx
      · rcases hmn : s.core.minItems with _ | mn
        · rfl
        · by_cases h0 : mn = 0 <;> simp [jsOrNat, h0] <;> omega
      · have hmx0 : mx ≠ 0 := by
          intro hc
          rw [hmx, hc] at hmax0
          exact hmax0 rfl
        rcases hmn : s.core.minItems with _ | mn
        · simp [jsOrNat, hmx0]
        · by_cases h0 : mn = 0 <;> simp [jsOrNat, h0, hmx0] <;> omega
    rw [generateArray, h]
    exact ⟨_, _, rfl, by rw [generateArrayItems_length, harith]⟩

/-- Witness for C7 at concrete array schemas: no `items` gives the empty
sequence; the spec's example schema gives exactly 2 elements. -/
theorem claim_C7_array_count_witness :
    (generateArray primaryFail zeroTape "" arrayNoItemsSchema 0 =
      (Json.arr [], 0)) ∧
    (∃ l k2, generateArray primaryFail zeroTape "" arrayRangeSchema 0 =
      (Json.arr l, k2) ∧
      l.length = min ((some 3 : Option Nat).getD 3)
        (max ((some 1 : Option Nat).getD 1) 2)) :=
  ⟨(claim_C7_array_count primaryFail zeroTape "" arrayNoItemsSchema 0).1 rfl,
   (claim_C7_array_count primaryFail zeroTape "" arrayRangeSchema 0).2
     (SchemaNode.node { type := some "string" }) rfl (by decide)⟩

/-- Counterexample to C7 as stated: with `maxItems = 0` (and `minItems`
absent) the claimed count is `clamp(2, 1, 0) = 0`, but the falsy bound is
replaced by `3` and two items are generated. -/
theorem claim_C7_counterexample :
    generateArray primaryFail zeroTape "" arrayMaxZeroSchema 0 =
      (Json.arr [Json.bool true, Json.bool true], 0) ∧
    ¬ ([Json.bool true, Json.bool true].length =
        min ((some 0 : Option Nat).getD 3)
          (max ((none : Option Nat).getD 1) 2)) := by
  constructor
  · have hbool : ∀ j, generateSampleData primaryFail zeroTape ""
        (SchemaNode.node { type := some "boolean" }) j =
        (Json.bool true, j) := by
      intro j
      rw [generateSampleData_fallback primaryFail zeroTape ""
        (SchemaNode.node { type := some "boolean" }) j rfl rfl rfl rfl,
        generateSimpleSample]
      rfl
    rw [generateArray]
    norm_num [arrayMaxZeroSchema, SchemaNode.core, jsOrNat]
    simp only [generateArrayItems, hbool]
    simp [arrayMaxZeroSchema, SchemaNode.core, hbool]
  · decide

theorem jsSetProp_mem_keys (o : List (String × Json)) (key : String)
    (v : Json) : key ∈ (jsSetProp o key v).map Prod.fst := by
  induction o with
  | nil => simp [jsSetProp]
  | cons hd tl ih =>
    obtain ⟨k1, v1⟩ := hd
    by_cases h : k1 = key <;> simp [jsSetProp, h, ih]

theorem jsSetProp_keys_mono {o : List (String × Json)} {a key : String}
    {v : Json} (h : a ∈ o.map Prod.fst) :
    a ∈ (jsSetProp o key v).map Prod.fst := by
  induction o with
  | nil => simp at h
  | cons hd tl ih =>
    obtain ⟨k1, v1⟩ := hd
    rcases List.mem_cons.mp h with heq | htl
    · by_cases hk : k1 = key <;> simp_all [jsSetProp]
    · by_cases hk : k1 = key <;> simp_all [jsSetProp]

theorem genObjectProps_keys_mono (p : SchemaNode → Option Json)
    (t : Nat → ℚ) (now : String) (required : List String) :
    ∀ (ps : List (String × SchemaNode)) (acc : List (String × Json))
      (k : Nat) (a : String), a ∈ acc.map Prod.fst →
      a ∈ (genObjectProps p t now required ps acc k).1.map Prod.fst := by
  intro ps
  induction ps with
  | nil =>
    intro acc k a h
    rw [genObjectProps]
    exact h
  | cons hd tl ih =>
    intro acc k a h
    obtain ⟨n1, s1⟩ := hd
    rw [genObjectProps]
    split_ifs with h1 h2
    · exact ih _ _ a (jsSetProp_keys_mono h)
    · exact ih _ _ a (jsSetProp_keys_mono h)
    · exact ih _ _ a h

theorem genObjectProps_required_mem (p : SchemaNode → Option Json)
    (t : Nat → ℚ) (now : String) (required : List String) :
    ∀ (ps : List (String × SchemaNode)) (acc : List (String × Json))
      (k : Nat) (name : String) (psch : SchemaNode),
      (name, psch) ∈ ps → required.contains name = true →
      name ∈ (genObjectProps p t now required ps acc k).1.map Prod.fst := by
  intro ps
  induction ps with
  | nil =>
    intro acc k name psch hmem _
    simp at hmem
  | cons hd tl ih =>
    intro acc k name psch hmem hreq
    obtain ⟨n1, s1⟩ := hd
    rw [genObjectProps]
    rcases List.mem_cons.mp hmem with heq | htl
    · injection heq with hn hs
      subst hn
      subst hs
      simp only [hreq, if_true]
      exact genObjectProps_keys_mono p t now required tl _ _ name
        (jsSetProp_mem_keys acc name _)
    · split_ifs with h1 h2
      · exact ih _ _ name psch htl hreq
      · exact ih _ _ name psch htl hreq
      · exact ih _ _ name psch htl hreq

theorem genAdditional_keys (p : SchemaNode → Option Json) (t : Nat → ℚ)
    (now : String) (s : SchemaNode) (obj : List (String × Json)) (k : Nat)
    (a : String) (h : a ∈ obj.map Prod.fst) :
    ∃ kvs k2, genAdditional p t now s obj k = (Json.obj kvs, k2) ∧
      a ∈ kvs.map Prod.fst := by
  rw [genAdditional]
  rcases hap : s.core.additionalProperties with _ | ⟨b | ap⟩
  · exact ⟨obj, k, rfl, h⟩
  · cases b
    · exact ⟨obj, k, rfl, h⟩
    · exact ⟨_, k, rfl, jsSetProp_keys_mono h⟩
  · exact ⟨_, _, rfl, jsSetProp_keys_mono h⟩

/-- C5: for every object schema with declared `properties` and a
`required` list, and for every outcome of the random draws (every tape
`t`), each declared property whose name is required appears among the
keys of the generated object. -/
theorem claim_C5_required_present (p : SchemaNode → Option Json)
    (t : Nat → ℚ) (now : String) (s : SchemaNode) (k : Nat)
    (ps : List (String × SchemaNode)) (req : List String) (name : String)
    (psch : SchemaNode)
    (hprops : s.core.properties = some ps)
    (hreq : s.core.required = some req)
    (hmem : (name, psch) ∈ ps)
    (hname : name ∈ req) :
    ∃ kvs k2, generateObject p t now s k = (Json.obj kvs, k2) ∧
      name ∈ kvs.map Prod.fst := by
  rw [generateObject, hprops, hreq]
  exact genAdditional_keys p t now s _ _ name
    (genObjectProps_required_mem p t now req ps [] k name psch hmem
      (List.elem_iff.mpr hname))

/-- Witness for C5 at a concrete object schema with two required
properties. -/
theorem claim_C5_required_present_witness :
    ∃ kvs k2, generateObject primaryFail zeroTape "" userObjectSchema 0 =
      (Json.obj kvs, k2) ∧ "email" ∈ kvs.map Prod.fst :=
  claim_C5_required_present primaryFail zeroTape "" userObjectSchema 0
    _ _ "email" (SchemaNode.node { type := some "string" }) rfl rfl
    (by simp) (by simp)

/-- Simultaneous schema-preservation for every function of the
mutation-tracking block, by induction on fuel: provided the external
primary generator leaves the node it receives unchanged, every function
returns its schema argument exactly as received. -/
theorem mutationFree (p : SchemaNode → Option Json × SchemaNode)
    (t : Nat → ℚ) (now : String) (hp : ∀ x, (p x).2 = x) :
    ∀ fuel : Nat,
      (∀ s k, (generateSampleDataM p t now fuel s k).2.1 = s) ∧
      (∀ s k, (generateSimpleSampleM p t now fuel s k).2.1 = s) ∧
      (∀ s k, (generateArrayM p t now fuel s k).2.1 = s) ∧
      (∀ n it k, (generateArrayItemsM p t now fuel n it k).2.1 = it) ∧
      (∀ req ps acc k, (genObjectPropsM p t now fuel req ps acc k).2.1 = ps) ∧
      (∀ s obj k, (genAdditionalM p t now fuel s obj k).2.1 = s) ∧
      (∀ s k, (generateObjectM p t now fuel s k).2.1 = s) := by
  intro fuel
  induction fuel with
  | zero =>
    refine ⟨fun s k => ?_, fun s k => ?_, fun s k => ?_,
      fun n it k => ?_, fun req ps acc k => ?_, fun s obj k => ?_,
      fun s k => ?_⟩
    · rw [generateSampleDataM]
    · rw [generateSimpleSampleM]
    · rw [generateArrayM]
    · cases n <;> rw [generateArrayItemsM]
    · rw [genObjectPropsM]
    · rw [genAdditionalM]
    · rw [generateObjectM]
  | succ fuel ih =>
    obtain ⟨ih1, ih2, ih3, ih4, ih5, ih6, ih7⟩ := ih
    refine ⟨?_, ?_, ?_, ?_, ?_, ?_, ?_⟩
    · intro s k
      simp only [generateSampleDataM]
      cases h1 : jsPresentStr s.core.ref with
      | some r => rfl
      | none =>
        cases h2 : s.core.example? with
        | some e => rfl
        | none =>
          cases h3 : usableExamples s.core.examples with
          | some x => rfl
          | none =>
            have hps := hp s
            rcases h4 : p s with ⟨v?, s1⟩
            rw [h4] at hps
            cases v? with
            | some v => simpa using hps
            | none => simp only []; rw [ih2 s1 k]; simpa using hps
    · intro s k
      simp only [generateSimpleSampleM]
      split <;>
        first
          | rfl
          | (split <;>
              first
                | rfl
                | exact ih3 _ _
                | exact ih7 _ _)
    · intro s k
      simp only [generateArrayM]
      cases h1 : s.core.items with
      | none => rfl
      | some it =>
        simp only []
        rw [ih4, ← h1]
        obtain ⟨c⟩ := s
        rfl
    · intro n it k
      cases n with
      | zero => rw [generateArrayItemsM]
      | succ m =>
        simp only [generateArrayItemsM]
        rw [ih4, ih1]
    · intro req ps acc k
      cases ps with
      | nil => rw [genObjectPropsM]
      | cons hd tl =>
        obtain ⟨n1, s1⟩ := hd
        simp only [genObjectPropsM]
        split_ifs <;> simp [ih1, ih5]
    · intro s obj k
      simp only [genAdditionalM]
      cases h1 : s.core.additionalProperties with
      | none => rfl
      | some x =>
        cases x with
        | inl b => cases b <;> rfl
        | inr ap =>
          simp only []
          rw [ih1, ← h1]
          obtain ⟨c⟩ := s
          rfl
    · intro s k
      simp only [generateObjectM]
      cases h1 : s.core.properties with
      | none => exact ih6 s [] k
      | some ps =>
        simp only []
        rw [ih6, ih5, ← h1]
        obtain ⟨c⟩ := s
        rfl

/-- C9: a call to the generator (including all recursive calls into
array items, object properties, and `additionalProperties`) leaves the
input schema node and all its nested nodes unchanged, for every fuel,
every random tape, and every non-mutating external primary generator. -/
theorem claim_C9_no_mutation (p : SchemaNode → Option Json × SchemaNode)
    (t : Nat → ℚ) (now : String) (hp : ∀ x, (p x).2 = x) (fuel : Nat)
    (s? : Option SchemaNode) (k : Nat) :
    (generateM p t now fuel s? k).2.1 = s? := by
  cases s? with
  | none => rfl
  | some s =>
    show (some (generateSampleDataM p t now fuel s k).2.1 :
      Option SchemaNode) = some s
    rw [(mutationFree p t now hp fuel).1 s k]

/-- Witness for C9 at a concrete schema tree, fuel and tape. -/
theorem claim_C9_no_mutation_witness :
    (generateM primaryFailM zeroTape "" 9 (some userObjectSchema) 0).2.1 =
      some userObjectSchema :=
  claim_C9_no_mutation primaryFailM zeroTape "" (fun _ => rfl) 9
    (some userObjectSchema) 0

